import Mathlib

/-!
The class `granada::http::session::StorageSession`
(include/granada/http/session/storage_session.h), as a shallow embedding.

* Objects that are reached through pointers (`Roles`, the `Functions`
  collection, the `SessionHandler`) are identified by their address, a `Nat`.
* A `std::shared_ptr` / `std::unique_ptr` is an `Option` of an address:
  `none` is the null pointer.
* The static data members of the class and the heap of `Roles` objects form
  the `Memory`; the non-static data members form the `StorageSession` value.
* A member function receives the receiver object (and its address where the
  code uses `this`) and the memory, and returns the new ones.  A call that
  dereferences a null pointer returns `none`.
* `OwnedMemory` adds to the memory the number of `shared_ptr` owners of each
  `Roles` object, so that the destruction of an object with its last owner is
  visible; `set_owned` is `set` over that memory.
-/

namespace granada

/-- Address of a `Session` object (`granada::http::session::Session*`). -/
abbrev SessionPtr := Nat

/-- Address of a `Roles` object (target of a `std::shared_ptr<Roles>`). -/
abbrev RolesPtr := Nat

/-- Address of a `granada::Functions` collection. -/
abbrev FunctionsPtr := Nat

/-- Address of a `SessionHandler`. -/
abbrev SessionHandlerPtr := Nat

/-- Modelled from the spec: the `Roles` class (roles.h / map_roles.h) is not
part of the sources.  The spec gives it an owning-session back-reference (a
non-owning pointer) next to authorization data that is opaque to the session
code. -/
structure Roles where
  /-- Back-reference to the owning session. -/
  session_ : Option SessionPtr
  /-- Authorization data, opaque here. -/
  roles_data_ : List (String × String)
deriving DecidableEq, Repr

/-- Modelled from the spec: `Roles::SetSession(session)` (roles.h is not part
of the sources) "rebinds the back-reference"; the authorization data is left
as it is. -/
def Roles.SetSession (self : Roles) (session : SessionPtr) : Roles :=
  { self with session_ := some session }

/-- Modelled from the spec: `granada::cache::MapCacheDriver`
(cache/map_cache_driver.h) is not part of the sources.  It is the in-memory map
driver: a finite map from the composite key `(token, key)` to a string value,
kept as an association list with at most one entry per composite key.  An
entry that has expired is an entry that the driver no longer holds, so `Get`
answers `none` both for a key never written and for an expired one. -/
structure MapCacheDriver where
  data_ : List ((String × String) × String)
deriving DecidableEq, Repr

/-- Modelled from the spec: `Get(key) -> value|absent` of the cache driver:
the value of the first entry stored under the composite key. -/
def MapCacheDriver.Get (self : MapCacheDriver) (k : String × String) : Option String :=
  match self.data_.find? (fun e => decide (e.1 = k)) with
  | some e => some e.2
  | none => none

/-- Modelled from the spec: `Delete(key)` of the cache driver: drops the entry
stored under the composite key, if there is one. -/
def MapCacheDriver.Delete (self : MapCacheDriver) (k : String × String) : MapCacheDriver :=
  { data_ := self.data_.filter (fun e => decide (e.1 ≠ k)) }

/-- Modelled from the spec: `Set(key, value)` of the cache driver: the entry
stored under the composite key is replaced by the new value.  The in-memory
map accepts every write. -/
def MapCacheDriver.Set (self : MapCacheDriver) (k : String × String) (v : String) :
    MapCacheDriver :=
  { data_ := (k, v) :: (self.Delete k).data_ }

/-- Modelled from the spec: the base class `Session` (session.h) is not part of
the sources.  The spec gives a session its `token`; the documentation of
`StorageSession::Update` in the header speaks of "the session update time". -/
structure Session where
  token_ : String
  update_time_ : Nat
deriving DecidableEq, Repr

/-- The non-static data members of `class StorageSession : public Session`
(storage_session.h, lines 174-200). -/
structure StorageSession extends Session where
  /-- The member `std::shared_ptr<Roles> roles_`. -/
  roles_ : Option RolesPtr
  /-- The member `granada::cache::MapCacheDriver cache_`, held by value. -/
  cache_ : MapCacheDriver
  /-- The member `long session_clean_extra_timeout_`. -/
  session_clean_extra_timeout_ : Int
deriving DecidableEq, Repr

/-- The heap of `Roles` objects together with the static data members of
`StorageSession` (`session_handler_`, line 165, and `close_callbacks_`,
line 184), which exist once for the whole process. -/
structure Memory where
  /-- The `Roles` object stored at each address. -/
  roles : RolesPtr → Roles
  /-- The static member `std::unique_ptr<Functions> close_callbacks_`. -/
  close_callbacks_ : Option FunctionsPtr
  /-- The static member `std::unique_ptr<SessionHandler> session_handler_`. -/
  session_handler_ : Option SessionHandlerPtr

/-- The call `p->SetSession(session)` on the `Roles` object at address `p`:
only that object changes. -/
def Memory.SetSession (m : Memory) (p : RolesPtr) (session : SessionPtr) : Memory :=
  { m with roles := fun q => if q = p then (m.roles q).SetSession session else m.roles q }

/-- The implicit copy assignment `(*this) = other` of `StorageSession`: the
base-class part and each non-static member of the receiver take the value of
the corresponding member of `other`; a `shared_ptr` is copied as a pointer.
Static members are not part of an object and are not assigned. -/
def StorageSession.assign (_self other : StorageSession) : StorageSession :=
  { toSession := other.toSession
    roles_ := other.roles_
    cache_ := other.cache_
    session_clean_extra_timeout_ := other.session_clean_extra_timeout_ }

/-- The member function `StorageSession::set` (lines 99-102):
```
void set(Session* session){
  (*this) = (*((StorageSession*)session));
  roles_->SetSession(this);
};
```
`thisPtr` is the address of the receiver, `self` the receiver before the call
and `session` the object the argument points to.  The implicit copy assignment
overwrites every non-static member of the receiver; then `roles_` (now the
copied pointer) is dereferenced, which is an error when it is null.  `Memory`
records the contents of the `Roles` objects, not their lifetime: the ownership
that the assignment of `roles_` moves is followed by `set_owned` below. -/
def StorageSession.set (thisPtr : SessionPtr) (self : StorageSession)
    (session : StorageSession) (m : Memory) : Option (StorageSession × Memory) :=
  let self1 : StorageSession := self.assign session
  match self1.roles_ with
  | none => none
  | some p => some (self1, m.SetSession p thisPtr)

/-- The member function `StorageSession::roles` (line 117):
`std::shared_ptr<Roles> roles(){ return roles_; }`.  It returns the result
together with the receiver and the memory after the call. -/
def StorageSession.roles (self : StorageSession) (m : Memory) :
    Option RolesPtr × StorageSession × Memory :=
  (self.roles_, self, m)

/-- The member function `StorageSession::close_callbacks` (line 127):
`Functions* close_callbacks(){ return close_callbacks_.get(); }`, a read of
the static member. -/
def StorageSession.close_callbacks (_self : StorageSession) (m : Memory) :
    Option FunctionsPtr :=
  m.close_callbacks_

/-- The memory together with the ownership of the `Roles` objects:
`use_count p` is the number of `std::shared_ptr<Roles>` that own the object at
address `p` (the `use_count()` of its control block).  An object with no owner
left has been destroyed. -/
structure OwnedMemory extends Memory where
  use_count : RolesPtr → Nat

/-- The live `Roles` object at an address; `none` when no object lives there
(never created, or destroyed with its last owner). -/
def OwnedMemory.object (m : OwnedMemory) (p : RolesPtr) : Option Roles :=
  if 0 < m.use_count p then some (m.roles p) else none

/-- A `shared_ptr` copy of `ptr` comes into being: the object it points to, if
any, has one owner more. -/
def OwnedMemory.acquire (m : OwnedMemory) (ptr : Option RolesPtr) : OwnedMemory :=
  match ptr with
  | none => m
  | some p => { m with use_count := fun q => if q = p then m.use_count q + 1 else m.use_count q }

/-- A `shared_ptr` holding `ptr` gives up its share: the object it points to,
if any, has one owner less, and is destroyed when that was the last one. -/
def OwnedMemory.release (m : OwnedMemory) (ptr : Option RolesPtr) : OwnedMemory :=
  match ptr with
  | none => m
  | some p => { m with use_count := fun q => if q = p then m.use_count q - 1 else m.use_count q }

/-- The member function `StorageSession::set` (lines 99-102) over a memory that
follows the ownership of the `Roles` objects.  The implicit copy assignment on
line 100 assigns the member `roles_` (line 177) with
`shared_ptr::operator=(const shared_ptr&)`, which the standard defines as
`shared_ptr(r).swap(*this)`: a share in the object of the argument is taken,
then the share the receiver held before is given up, which destroys that object
when the receiver was its last owner.  Line 101 then calls `SetSession(this)`
through the new `roles_`, an error when it is null. -/
def StorageSession.set_owned (thisPtr : SessionPtr) (self : StorageSession)
    (session : StorageSession) (m : OwnedMemory) : Option (StorageSession × OwnedMemory) :=
  let self1 : StorageSession := self.assign session
  let m1 : OwnedMemory := (m.acquire session.roles_).release self.roles_
  match self1.roles_ with
  | none => none
  | some p => some (self1, { m1 with toMemory := m1.toMemory.SetSession p thisPtr })

/-- Modelled from the spec: `StorageSession::Write` is declared in the header
(line 135) and defined in a source file that is not part of the sources.
"stores `value` under `(token, key)` in the cache driver". -/
def StorageSession.Write (self : StorageSession) (key value : String) : StorageSession :=
  { self with cache_ := self.cache_.Set (self.token_, key) value }

/-- Modelled from the spec: `StorageSession::Read` is declared in the header
(line 143, returning `const std::string`) and defined in a source file that is
not part of the sources.  "returns the stored string or an empty/sentinel value
if the key does not exist or has expired": the empty string stands for an
absent value. -/
def StorageSession.Read (self : StorageSession) (key : String) : String :=
  match self.cache_.Get (self.token_, key) with
  | some v => v
  | none => ""

/-- Modelled from the spec: `StorageSession::Destroy` is declared in the header
(line 150) and defined in a source file that is not part of the sources.
"removes the single key; no-op if already absent". -/
def StorageSession.Destroy (self : StorageSession) (key : String) : StorageSession :=
  { self with cache_ := self.cache_.Delete (self.token_, key) }

/-- Modelled from the spec: `StorageSession::Update` is declared in the header
(line 110) and defined in a source file that is not part of the sources.  The
header documents it as "updating the session update time to now", the spec as
renewing the expiration "to now + configured timeout".  `now` is the clock
reading at the call.  The saving of the session with the session handler, which
is not part of the sources either, touches no member of the session. -/
def StorageSession.Update (now : Nat) (self : StorageSession) : StorageSession :=
  { self with update_time_ := now }

/-- Modelled from the spec: the instant at which the session times out, "now +
timeout" counted from the last update, for the configured `timeout`. -/
def StorageSession.expiration (self : StorageSession) (timeout : Nat) : Nat :=
  self.update_time_ + timeout

/-! ## Concrete states used to evaluate the definitions -/

/-- A memory with two `Roles` objects: the one at address 1 is bound to the
session at address 10, the one at address 2 to the session at address 20. -/
def m0 : Memory :=
  { roles := fun p =>
      if p = 1 then { session_ := some 10, roles_data_ := [("user", "alice")] }
      else if p = 2 then { session_ := some 20, roles_data_ := [] }
      else { session_ := none, roles_data_ := [] }
    close_callbacks_ := some 7
    session_handler_ := some 8 }

/-- The session object at address 10: token "A", `Roles` object 1. -/
def a0 : StorageSession :=
  { token_ := "A", update_time_ := 100, roles_ := some 1,
    cache_ := { data_ := [(("A", "cart"), "1 item")] },
    session_clean_extra_timeout_ := 5 }

/-- The session object at address 20: token "B", `Roles` object 2. -/
def b0 : StorageSession :=
  { token_ := "B", update_time_ := 200, roles_ := some 2,
    cache_ := { data_ := [(("B", "cart"), "9 items"), (("B", "lang"), "es")] },
    session_clean_extra_timeout_ := 60 }

/-- A session object whose `roles_` pointer is null. -/
def c0 : StorageSession :=
  { token_ := "C", update_time_ := 0, roles_ := none,
    cache_ := { data_ := [] },
    session_clean_extra_timeout_ := 0 }

/-- The memory `m0` right after the construction of the two sessions: each
`Roles` object is owned by the `roles_` member of its session alone. -/
def om0 : OwnedMemory :=
  { toMemory := m0
    use_count := fun p => if p = 1 then 1 else if p = 2 then 1 else 0 }

/-- The memory `m0` where the `Roles` object 1 has a second owner besides the
session at address 10 (a `shared_ptr` obtained from `roles()` and kept). -/
def om1 : OwnedMemory :=
  { toMemory := m0
    use_count := fun p => if p = 1 then 2 else if p = 2 then 1 else 0 }

/-! ## The cache driver as a finite map -/

theorem find_filter_ne (l : List ((String × String) × String)) (k k2 : String × String)
    (h : k2 ≠ k) :
    (l.filter (fun e => decide (e.1 ≠ k))).find? (fun e => decide (e.1 = k2)) =
      l.find? (fun e => decide (e.1 = k2)) := by
  induction l with
  | nil => rfl
  | cons e l ih =>
    by_cases h1 : e.1 = k
    · have h2 : ¬ e.1 = k2 := fun h3 => h (h3.symm.trans h1)
      rw [List.filter_cons_of_neg (by simpa using h1), List.find?_cons_of_neg _ (by simpa using h2)]
      exact ih
    · rw [List.filter_cons_of_pos (by simpa using h1)]
      by_cases h2 : e.1 = k2
      · rw [List.find?_cons_of_pos _ (by simpa using h2),
          List.find?_cons_of_pos _ (by simpa using h2)]
      · rw [List.find?_cons_of_neg _ (by simpa using h2),
          List.find?_cons_of_neg _ (by simpa using h2)]
        exact ih

theorem find_filter_self (l : List ((String × String) × String)) (k : String × String) :
    (l.filter (fun e => decide (e.1 ≠ k))).find? (fun e => decide (e.1 = k)) = none := by
  induction l with
  | nil => rfl
  | cons e l ih =>
    by_cases h1 : e.1 = k
    · rw [List.filter_cons_of_neg (by simpa using h1)]
      exact ih
    · rw [List.filter_cons_of_pos (by simpa using h1),
        List.find?_cons_of_neg _ (by simpa using h1)]
      exact ih

theorem Get_Delete_self (c : MapCacheDriver) (k : String × String) :
    (c.Delete k).Get k = none := by
  unfold MapCacheDriver.Get MapCacheDriver.Delete
  simp only [find_filter_self]

theorem Get_Delete_ne (c : MapCacheDriver) (k k2 : String × String) (h : k2 ≠ k) :
    (c.Delete k).Get k2 = c.Get k2 := by
  unfold MapCacheDriver.Get MapCacheDriver.Delete
  simp only [find_filter_ne _ _ _ h]

theorem Get_Set_self (c : MapCacheDriver) (k : String × String) (v : String) :
    (c.Set k v).Get k = some v := by
  simp [MapCacheDriver.Get, MapCacheDriver.Set, List.find?]

theorem Get_Set_ne (c : MapCacheDriver) (k k2 : String × String) (v : String) (h : k2 ≠ k) :
    (c.Set k v).Get k2 = c.Get k2 := by
  have h1 : ¬ k = k2 := fun h3 => h h3.symm
  have h2 := Get_Delete_ne c k k2 h
  unfold MapCacheDriver.Get at h2 ⊢
  simp only [MapCacheDriver.Set, List.find?, h1, decide_False]
  exact h2

/-! ## `set`, `roles` and `close_callbacks` -/

theorem set_eq_some (thisPtr : SessionPtr) (a b : StorageSession) (m : Memory)
    (r : RolesPtr) (hb : b.roles_ = some r) :
    StorageSession.set thisPtr a b m = some (a.assign b, m.SetSession r thisPtr) := by
  simp [StorageSession.set, StorageSession.assign, hb]

theorem SetSession_roles_self (m : Memory) (p : RolesPtr) (s : SessionPtr) :
    (m.SetSession p s).roles p = (m.roles p).SetSession s := by
  simp [Memory.SetSession]

theorem SetSession_roles_ne (m : Memory) (p q : RolesPtr) (s : SessionPtr) (h : q ≠ p) :
    (m.SetSession p s).roles q = m.roles q := by
  simp [Memory.SetSession, h]

/-- C1: for every session `a` and every session `b` with a `Roles` object
attached, `a.set(b)` returns, and afterwards every non-static member of `a`
(the `roles_` pointer, `cache_`, `session_clean_extra_timeout_` and the
inherited `Session` part with its token) equals the member of `b` before the
call. -/
theorem set_copies_every_field (thisPtr : SessionPtr) (a b : StorageSession) (m : Memory)
    (r : RolesPtr) (hb : b.roles_ = some r) :
    ∃ a1 m1, StorageSession.set thisPtr a b m = some (a1, m1) ∧
      a1.roles_ = b.roles_ ∧ a1.cache_ = b.cache_ ∧
      a1.session_clean_extra_timeout_ = b.session_clean_extra_timeout_ ∧
      a1.toSession = b.toSession ∧ a1.token_ = b.token_ ∧ a1 = b :=
  ⟨a.assign b, m.SetSession r thisPtr, set_eq_some thisPtr a b m r hb,
    rfl, rfl, rfl, rfl, rfl, rfl⟩

/-- C1 evaluated at `a0.set(b0)` with the receiver at address 10. -/
theorem set_copies_every_field_witness :
    b0.roles_ = some 2 ∧
    ∃ a1 m1, StorageSession.set 10 a0 b0 m0 = some (a1, m1) ∧
      a1.roles_ = b0.roles_ ∧ a1.cache_ = b0.cache_ ∧
      a1.session_clean_extra_timeout_ = b0.session_clean_extra_timeout_ ∧
      a1.toSession = b0.toSession ∧ a1.token_ = b0.token_ ∧ a1 = b0 :=
  ⟨rfl, set_copies_every_field 10 a0 b0 m0 2 rfl⟩

/-- C2: for every session `a` (at address `thisPtr`) and every session `b` (at
address `bPtr`) with a `Roles` object attached, after `a.set(b)` the `Roles`
object returned by `a.roles()` has its back-reference equal to the receiver:
not to `b` when `b` is another object, and whatever it referenced before. -/
theorem set_rebinds_roles_to_receiver (thisPtr bPtr : SessionPtr) (a b : StorageSession)
    (m : Memory) (r : RolesPtr) (hb : b.roles_ = some r) :
    ∃ a1 m1, StorageSession.set thisPtr a b m = some (a1, m1) ∧
      ∃ r1, (a1.roles m1).1 = some r1 ∧
        (m1.roles r1).session_ = some thisPtr ∧
        (bPtr ≠ thisPtr → (m1.roles r1).session_ ≠ some bPtr) ∧
        ((m.roles r1).session_ ≠ some thisPtr →
          (m1.roles r1).session_ ≠ (m.roles r1).session_) := by
  refine ⟨a.assign b, m.SetSession r thisPtr, set_eq_some thisPtr a b m r hb, r, ?_, ?_, ?_, ?_⟩
  · simp [StorageSession.roles, StorageSession.assign, hb]
  · rw [SetSession_roles_self]; rfl
  · intro hne
    rw [SetSession_roles_self]
    intro h
    exact hne (Option.some.inj h).symm
  · intro hne
    rw [SetSession_roles_self]
    intro h
    exact hne h.symm

/-- C2 evaluated at `a0.set(b0)` with the receiver at address 10 and `b0` at address 20. -/
theorem set_rebinds_roles_to_receiver_witness :
    b0.roles_ = some 2 ∧
    ∃ a1 m1, StorageSession.set 10 a0 b0 m0 = some (a1, m1) ∧
      ∃ r1, (a1.roles m1).1 = some r1 ∧
        (m1.roles r1).session_ = some 10 ∧
        ((20 : SessionPtr) ≠ 10 → (m1.roles r1).session_ ≠ some 20) ∧
        ((m0.roles r1).session_ ≠ some 10 →
          (m1.roles r1).session_ ≠ (m0.roles r1).session_) :=
  ⟨rfl, set_rebinds_roles_to_receiver 10 20 a0 b0 m0 2 rfl⟩

/-- C9: `a.set(b)` is defined exactly when `b` has a `Roles` object attached:
it reaches the null dereference if and only if `b.roles_` is null, whatever
the receiver `a` held before the call. -/
theorem set_error_iff_argument_has_no_roles (thisPtr : SessionPtr) (a b : StorageSession)
    (m : Memory) :
    (StorageSession.set thisPtr a b m = none ↔ b.roles_ = none) ∧
    ((StorageSession.set thisPtr a b m).isSome = true ↔ b.roles_.isSome = true) ∧
    (∀ a2 : StorageSession,
      (StorageSession.set thisPtr a2 b m).isSome = (StorageSession.set thisPtr a b m).isSome) := by
  cases hb : b.roles_ with
  | none => simp [StorageSession.set, StorageSession.assign, hb]
  | some r => simp [set_eq_some _ _ b m r hb]

theorem acquire_toMemory (m : OwnedMemory) (ptr : Option RolesPtr) :
    (m.acquire ptr).toMemory = m.toMemory := by
  cases ptr <;> rfl

theorem release_toMemory (m : OwnedMemory) (ptr : Option RolesPtr) :
    (m.release ptr).toMemory = m.toMemory := by
  cases ptr <;> rfl

/-- On the returned session, the contents of the `Roles` objects and the static
members, `set_owned` is `set`. -/
theorem set_owned_toMemory (thisPtr : SessionPtr) (a b : StorageSession) (m : OwnedMemory) :
    (StorageSession.set_owned thisPtr a b m).map (fun x => (x.1, x.2.toMemory)) =
      StorageSession.set thisPtr a b m.toMemory := by
  cases hb : b.roles_ with
  | none => simp [StorageSession.set_owned, StorageSession.set, StorageSession.assign, hb]
  | some r =>
    simp [StorageSession.set_owned, StorageSession.set, StorageSession.assign, hb,
      acquire_toMemory, release_toMemory]

theorem set_owned_eq_some (thisPtr : SessionPtr) (a b : StorageSession) (m : OwnedMemory)
    (r : RolesPtr) (hb : b.roles_ = some r) :
    StorageSession.set_owned thisPtr a b m =
      some (a.assign b,
        { (m.acquire b.roles_).release a.roles_ with
          toMemory := ((m.acquire b.roles_).release a.roles_).toMemory.SetSession r thisPtr }) := by
  simp [StorageSession.set_owned, StorageSession.assign, hb]

/-- The owners of the object of the argument after the assignment of `roles_`:
as many as before when the receiver held that object already, one more
otherwise. -/
theorem use_count_assigned (m : OwnedMemory) (old : Option RolesPtr) (r : RolesPtr) :
    ((m.acquire (some r)).release old).use_count r =
      if old = some r then m.use_count r else m.use_count r + 1 := by
  cases old with
  | none => simp [OwnedMemory.acquire, OwnedMemory.release]
  | some r0 =>
    by_cases h : r0 = r
    · subst h
      simp [OwnedMemory.acquire, OwnedMemory.release]
    · have h2 : ¬ r = r0 := fun h3 => h h3.symm
      simp [OwnedMemory.acquire, OwnedMemory.release, h, h2]

/-- The owners of the object the receiver held before, when it is not the
object of the argument: one less. -/
theorem use_count_released (m : OwnedMemory) (r0 r : RolesPtr) (h : r0 ≠ r) :
    ((m.acquire (some r)).release (some r0)).use_count r0 = m.use_count r0 - 1 := by
  simp [OwnedMemory.acquire, OwnedMemory.release, h]

/-- C10, as stated, fails in its last part, in two ways.  (1) When `a` and `b`
already share their `Roles` object: from `om0`, `b.set(a)` (receiver at 20)
makes `b` share the object 1 of `a` and binds it to 20; in the following
`a.set(b)` (receiver at 10, distinct from 20) the `Roles` object `a` held
before the call is object 1, and its back-reference changes from 20 to 10.
(2) When `a` is the only owner of its `Roles` object: from `om0`, `a.set(b)`
gives up the last share in object 1, which is destroyed, so that it has no
back-reference left. -/
theorem set_previous_roles_not_preserved :
    (∃ b1 m1 a2 m2,
      StorageSession.set_owned 20 b0 a0 om0 = some (b1, m1) ∧
      StorageSession.set_owned 10 a0 b1 m1 = some (a2, m2) ∧
      (10 : SessionPtr) ≠ 20 ∧ b1.roles_ = some 1 ∧ a0.roles_ = some 1 ∧
      (m1.object 1).map Roles.session_ = some (some 20) ∧
      (m2.object 1).map Roles.session_ = some (some 10) ∧
      (m2.object 1).map Roles.session_ ≠ (m1.object 1).map Roles.session_) ∧
    (∃ a1 m1,
      StorageSession.set_owned 10 a0 b0 om0 = some (a1, m1) ∧
      (10 : SessionPtr) ≠ 20 ∧ a0.roles_ = some 1 ∧ b0.roles_ = some 2 ∧
      (om0.object 1).map Roles.session_ = some (some 10) ∧
      m1.object 1 = none ∧
      (m1.object 1).map Roles.session_ ≠ (om0.object 1).map Roles.session_) := by
  refine ⟨⟨_, _, _, _, rfl, rfl, by decide, rfl, rfl, by decide, by decide, by decide⟩,
    ⟨_, _, rfl, by decide, rfl, rfl, by decide, by decide, by decide⟩⟩

/-- C10 (amended): for every two distinct sessions `a` (at `thisPtr`) and `b`
(at `bPtr`) where `b` has a live `Roles` object attached, after `a.set(b)` the
calls `a.roles()` and `b.roles()` return the same `Roles` object (the pointer
is copied, the object is not: its data is as before), and that object is bound
to `a`, not to `b`; the `Roles` object `a` held before the call, when it is
another object than the one of `b` and another owner of it is left, is alive
with its back-reference unchanged; when `a` was its only owner it is
destroyed. -/
theorem set_owned_shares_roles_object (thisPtr bPtr : SessionPtr) (a b : StorageSession)
    (m : OwnedMemory) (r : RolesPtr) (hne : thisPtr ≠ bPtr) (hb : b.roles_ = some r)
    (hlive : 0 < m.use_count r) :
    ∃ a1 m1, StorageSession.set_owned thisPtr a b m = some (a1, m1) ∧
      (a1.roles m1.toMemory).1 = some r ∧ (b.roles m1.toMemory).1 = some r ∧
      (m1.object r).map Roles.session_ = some (some thisPtr) ∧
      (m1.object r).map Roles.session_ ≠ some (some bPtr) ∧
      (m1.object r).map Roles.roles_data_ = (m.object r).map Roles.roles_data_ ∧
      (∀ r0, a.roles_ = some r0 → r0 ≠ r → 1 < m.use_count r0 →
        (m1.object r0).isSome = true ∧
        (m1.object r0).map Roles.session_ = (m.object r0).map Roles.session_) ∧
      (∀ r0, a.roles_ = some r0 → r0 ≠ r → m.use_count r0 ≤ 1 → m1.object r0 = none) := by
  have hcount : 0 < ((m.acquire b.roles_).release a.roles_).use_count r := by
    rw [hb, use_count_assigned]
    split <;> omega
  have hobj : (OwnedMemory.object
      { (m.acquire b.roles_).release a.roles_ with
        toMemory := ((m.acquire b.roles_).release a.roles_).toMemory.SetSession r thisPtr } r)
      = some ((m.roles r).SetSession thisPtr) := by
    simp only [OwnedMemory.object, hcount, if_true, release_toMemory, acquire_toMemory,
      SetSession_roles_self]
  refine ⟨_, _, set_owned_eq_some thisPtr a b m r hb, ?_, ?_, ?_, ?_, ?_, ?_, ?_⟩
  · simp [StorageSession.roles, StorageSession.assign, hb]
  · simp [StorageSession.roles, hb]
  · rw [hobj]; rfl
  · rw [hobj]
    intro h
    exact hne (Option.some.inj (Option.some.inj h))
  · rw [hobj]
    simp only [OwnedMemory.object, hlive, if_true]
    rfl
  · intro r0 ha hr0 hown
    have hc : ((m.acquire b.roles_).release a.roles_).use_count r0 = m.use_count r0 - 1 := by
      rw [hb, ha]; exact use_count_released m r0 r hr0
    have h1 : 0 < m.use_count r0 - 1 := by omega
    have h2 : 0 < m.use_count r0 := by omega
    simp only [OwnedMemory.object, hc, h1, h2, if_true, release_toMemory, acquire_toMemory,
      SetSession_roles_ne _ _ _ _ hr0]
    exact ⟨rfl, trivial⟩
  · intro r0 ha hr0 hown
    have hc : ((m.acquire b.roles_).release a.roles_).use_count r0 = m.use_count r0 - 1 := by
      rw [hb, ha]; exact use_count_released m r0 r hr0
    have h1 : ¬ 0 < m.use_count r0 - 1 := by omega
    simp only [OwnedMemory.object, hc, h1, if_false]

/-- C10 (amended) evaluated at `a0.set(b0)` with the receiver at address 10,
`b0` at address 20, in the memory `om1` where the `Roles` object 1 that `a0`
held has a second owner. -/
theorem set_owned_shares_roles_object_witness :
    (10 : SessionPtr) ≠ 20 ∧ b0.roles_ = some 2 ∧ 0 < om1.use_count 2 ∧
    a0.roles_ = some 1 ∧ (1 : RolesPtr) ≠ 2 ∧ 1 < om1.use_count 1 ∧
    ∃ a1 m1, StorageSession.set_owned 10 a0 b0 om1 = some (a1, m1) ∧
      (a1.roles m1.toMemory).1 = some 2 ∧ (b0.roles m1.toMemory).1 = some 2 ∧
      (m1.object 2).map Roles.session_ = some (some 10) ∧
      (m1.object 1).isSome = true ∧
      (m1.object 1).map Roles.session_ = (om1.object 1).map Roles.session_ := by
  obtain ⟨a1, m1, h, h1, h2, h3, _, _, h6, _⟩ :=
    set_owned_shares_roles_object 10 20 a0 b0 om1 2 (by decide) rfl (by decide)
  exact ⟨by decide, rfl, by decide, rfl, by decide, by decide, a1, m1, h, h1, h2, h3,
    (h6 1 rfl (by decide) (by decide)).1, (h6 1 rfl (by decide) (by decide)).2⟩

/-- C8: the close-callback collection is a static member: any two sessions, in
any state, get the same collection from `close_callbacks()`, and a `set` on
any session leaves the collection that is returned (to the receiver, to the
argument and to every other session) the same. -/
theorem close_callbacks_shared (m : Memory) (s1 s2 : StorageSession) :
    s1.close_callbacks m = s2.close_callbacks m ∧
    ∀ (thisPtr : SessionPtr) (a b a1 : StorageSession) (m1 : Memory),
      StorageSession.set thisPtr a b m = some (a1, m1) →
        a1.close_callbacks m1 = a.close_callbacks m ∧
        b.close_callbacks m1 = b.close_callbacks m ∧
        s1.close_callbacks m1 = s1.close_callbacks m ∧
        s1.close_callbacks m1 = s2.close_callbacks m1 := by
  refine ⟨rfl, ?_⟩
  intro thisPtr a b a1 m1 h
  cases hb : b.roles_ with
  | none => simp [StorageSession.set, StorageSession.assign, hb] at h
  | some r =>
    rw [set_eq_some thisPtr a b m r hb] at h
    have h2 : m1 = m.SetSession r thisPtr := (congrArg Prod.snd (Option.some.inj h)).symm
    subst h2
    exact ⟨rfl, rfl, rfl, rfl⟩

/-- C8 evaluated at the sessions `a0`, `b0`, `c0` and the call `a0.set(b0)`. -/
theorem close_callbacks_shared_witness :
    StorageSession.set 10 a0 b0 m0 = some (b0, m0.SetSession 2 10) ∧
    a0.close_callbacks m0 = c0.close_callbacks m0 ∧
    b0.close_callbacks (m0.SetSession 2 10) = a0.close_callbacks m0 ∧
    a0.close_callbacks (m0.SetSession 2 10) = c0.close_callbacks (m0.SetSession 2 10) :=
  ⟨rfl, (close_callbacks_shared m0 a0 c0).1,
    ((close_callbacks_shared m0 a0 c0).2 10 a0 b0 b0 (m0.SetSession 2 10) rfl).1,
    ((close_callbacks_shared m0 a0 c0).2 10 a0 b0 b0 (m0.SetSession 2 10) rfl).2.2.2⟩

/-- C3, as stated, fails: `roles()` is a plain read of `roles_`.  On the
session `c0`, which has no `Roles` object attached, it returns the null
pointer and constructs nothing (session and memory are as before).  And a
present result need not be bound to the receiver: after `a.set(b)` with `a` at
address 10 and `b` at address 20, `b.roles()` returns the object 2, whose
back-reference is 10. -/
theorem roles_absent_not_constructed :
    (c0.roles m0).1 = none ∧ (c0.roles m0).2.1 = c0 ∧
    (c0.roles m0).2.2.roles = m0.roles ∧
    (∃ a1 m1, StorageSession.set 10 a0 b0 m0 = some (a1, m1) ∧
      (b0.roles m1).1 = some 2 ∧ (m1.roles 2).session_ = some 10 ∧
      (m1.roles 2).session_ ≠ some 20) :=
  ⟨rfl, rfl, rfl, b0, m0.SetSession 2 10, rfl, rfl, rfl, by decide⟩

/-- C3 (amended): for every session `s`, `s.roles()` returns the stored
`roles_` pointer as it is and changes neither the session nor the memory: the
result is present exactly when a `Roles` object is attached, absent exactly
when none is, and the object it designates is bound as it was before the
call. -/
theorem roles_returns_stored_pointer (s : StorageSession) (m : Memory) :
    (s.roles m).1 = s.roles_ ∧ (s.roles m).2.1 = s ∧ (s.roles m).2.2 = m ∧
    ((s.roles m).1 = none ↔ s.roles_ = none) ∧
    ((s.roles m).1.isSome = true ↔ s.roles_.isSome = true) ∧
    (∀ r, (s.roles m).1 = some r → (s.roles m).2.2.roles r = m.roles r) :=
  ⟨rfl, rfl, rfl, Iff.rfl, Iff.rfl, fun _ _ => rfl⟩

/-- C3 (amended) evaluated at `a0.roles()`. -/
theorem roles_returns_stored_pointer_witness :
    (a0.roles m0).1 = some 1 ∧ (a0.roles m0).2.2.roles 1 = m0.roles 1 :=
  ⟨(roles_returns_stored_pointer a0 m0).1,
    (roles_returns_stored_pointer a0 m0).2.2.2.2.2 1 rfl⟩

/-! ## `Write`, `Read`, `Destroy` and `Update` -/

/-- C4: for every session and all strings `key`, `value`, `Read(key)` right
after `Write(key, value)` on that session returns exactly `value`; in
particular `Write("cart", "3 items")` then `Read("cart")` gives "3 items". -/
theorem Read_after_Write (s : StorageSession) (key value : String) :
    (s.Write key value).Read key = value ∧
    (a0.Write "cart" "3 items").Read "cart" = "3 items" := by
  have h : ∀ (t : StorageSession) (k v : String), (t.Write k v).Read k = v := by
    intro t k v
    simp only [StorageSession.Read, StorageSession.Write, Get_Set_self]
  exact ⟨h s key value, h a0 "cart" "3 items"⟩

/-- C5: for two sessions with different tokens, a `Write(k, v)` on the first
leaves every `Read` on the second unchanged, the read of the same key name `k`
included, even when both sessions are backed by the same driver contents: the
second session reads the same value from the contents the first one wrote as
from the contents before the write.  (With `cache_` held by value in each
object, a write on one object does not reach the other object at all.) -/
theorem Write_isolated_by_token (a b : StorageSession) (k v : String)
    (hab : a.token_ ≠ b.token_) :
    ({ b with cache_ := (a.Write k v).cache_ } : StorageSession).Read k =
      ({ b with cache_ := a.cache_ } : StorageSession).Read k ∧
    ∀ k2 : String,
      ({ b with cache_ := (a.Write k v).cache_ } : StorageSession).Read k2 =
        ({ b with cache_ := a.cache_ } : StorageSession).Read k2 := by
  have h : ∀ k2 : String,
      ({ b with cache_ := (a.Write k v).cache_ } : StorageSession).Read k2 =
        ({ b with cache_ := a.cache_ } : StorageSession).Read k2 := by
    intro k2
    have hne : (b.token_, k2) ≠ (a.token_, k) := fun h => hab (congrArg Prod.fst h).symm
    simp only [StorageSession.Read, StorageSession.Write, Get_Set_ne _ _ _ _ hne]
  exact ⟨h k, h⟩

/-- C5 evaluated at the tokens "A" and "B" and the key "cart". -/
theorem Write_isolated_by_token_witness :
    a0.token_ ≠ b0.token_ ∧
    ({ b0 with cache_ := (a0.Write "cart" "3 items").cache_ } : StorageSession).Read "cart" =
      ({ b0 with cache_ := a0.cache_ } : StorageSession).Read "cart" :=
  ⟨by decide, (Write_isolated_by_token a0 b0 "cart" "3 items" (by decide)).1⟩

theorem Update_iterate (now : Nat) (s : StorageSession) (n : Nat) :
    (StorageSession.Update now)^[n + 1] s = StorageSession.Update now s := by
  induction n with
  | zero => rfl
  | succ n ih =>
    rw [Function.iterate_succ_apply', ih]
    rfl

/-- C6: `Update()` is idempotent: for every session and every N ≥ 1, N calls
of `Update()` at the same instant `now` leave the session in the state of a
single call: the expiration is `now + timeout` (reset, not added to), and the
stored data, the token, the roles pointer and the extra timeout are those the
session had before. -/
theorem Update_idempotent (s : StorageSession) (now timeout N : Nat) (hN : 1 ≤ N) :
    (StorageSession.Update now)^[N] s = StorageSession.Update now s ∧
    ((StorageSession.Update now)^[N] s).expiration timeout = now + timeout ∧
    ((StorageSession.Update now)^[N] s).cache_ = s.cache_ ∧
    ((StorageSession.Update now)^[N] s).token_ = s.token_ ∧
    ((StorageSession.Update now)^[N] s).roles_ = s.roles_ ∧
    ((StorageSession.Update now)^[N] s).session_clean_extra_timeout_ =
      s.session_clean_extra_timeout_ := by
  obtain ⟨n, rfl⟩ : ∃ n, N = n + 1 := ⟨N - 1, by omega⟩
  rw [Update_iterate]
  exact ⟨rfl, rfl, rfl, rfl, rfl, rfl⟩

/-- C6 evaluated at three calls of `Update()` at the instant 1000 with timeout 30. -/
theorem Update_idempotent_witness :
    1 ≤ 3 ∧ (StorageSession.Update 1000)^[3] a0 = StorageSession.Update 1000 a0 ∧
    ((StorageSession.Update 1000)^[3] a0).expiration 30 = 1000 + 30 :=
  ⟨by decide, (Update_idempotent a0 1000 30 3 (by decide)).1,
    (Update_idempotent a0 1000 30 3 (by decide)).2.1⟩

/-- C7: for every session and every `key`, holding a value or not: after
`Destroy(key)`, `Read(key)` returns the empty (absent) value, the driver holds
nothing under that key, and every other key of the session reads as before.
`Read` and `Destroy` are total: there is no error outcome. -/
theorem Read_after_Destroy (s : StorageSession) (key : String) :
    (s.Destroy key).Read key = "" ∧
    (s.Destroy key).cache_.Get (s.token_, key) = none ∧
    (s.Destroy key).token_ = s.token_ ∧
    ∀ k2 : String, k2 ≠ key → (s.Destroy key).Read k2 = s.Read k2 := by
  refine ⟨?_, ?_, rfl, ?_⟩
  · simp only [StorageSession.Read, StorageSession.Destroy, Get_Delete_self]
  · simp only [StorageSession.Destroy, Get_Delete_self]
  · intro k2 hne
    have h : (s.token_, k2) ≠ (s.token_, key) := fun h => hne (congrArg Prod.snd h)
    simp only [StorageSession.Read, StorageSession.Destroy, Get_Delete_ne _ _ _ h]

/-- C7 evaluated at `Destroy("cart")` on a session that holds the key and on one that does not. -/
theorem Read_after_Destroy_witness :
    (b0.Destroy "cart").Read "cart" = "" ∧ (c0.Destroy "cart").Read "cart" = "" ∧
    ("lang" ≠ "cart" ∧ (b0.Destroy "cart").Read "lang" = b0.Read "lang") :=
  ⟨(Read_after_Destroy b0 "cart").1, (Read_after_Destroy c0 "cart").1,
    by decide, (Read_after_Destroy b0 "cart").2.2.2 "lang" (by decide)⟩

/-- The token is what separates two sessions backed by the same driver
contents: a reader with the token of the writer does see the value written. -/
theorem Write_visible_same_token (a b : StorageSession) (k v : String)
    (hab : a.token_ = b.token_) :
    ({ b with cache_ := (a.Write k v).cache_ } : StorageSession).Read k = v := by
  simp only [StorageSession.Read, StorageSession.Write, hab, Get_Set_self]

/-- The scenario of the spec: `Write("cart", "3 items")`, `Read("cart")` gives
"3 items", `Destroy("cart")`, `Read("cart")` gives the absent value. -/
theorem scenario_cart :
    (c0.Write "cart" "3 items").Read "cart" = "3 items" ∧
    ((c0.Write "cart" "3 items").Destroy "cart").Read "cart" = "" := by
  decide

end granada
